import Mathlib

/-!
# Artemis Global Tracker: message fields and EEPROM layouts

A shallow embedding of the two headers of the tracker examples,

* `Software/examples/Example16_GlobalTracker/Tracker_Message_Fields.h`
* `Software/examples/Example15_BetterTracker/Tracker_EEPROM_Storage.h`

Preprocessor constants become `Nat` definitions with the macro's name and the
macro's body, C enumerations become inductive types together with the integer
value the compiler gives each enumerator, and the initialised array `ID_widths`
becomes the list of its initialisers.  Both headers define `LEN_*`, `LOC_*` and
`DEF_*` macros of the same names, so each header lives in a namespace of its own.
-/

set_option autoImplicit false

namespace Example16

/-! ## Data type storage lengths (Tracker_Message_Fields.h, lines 9-13) -/

def LEN_BYTE : Nat := 1
def LEN_INT16 : Nat := 2
def LEN_INT32 : Nat := 4
def LEN_FLOAT : Nat := 4

/-! ## Message field identifiers (lines 270-343) -/

/-- The enumeration `tracker_message_fields`: one constructor per enumerator. -/
inductive tracker_message_fields
  | STX | ETX | SWVER | SOURCE | BATTV | PRESS | TEMP | HUMID
  | YEAR | MONTH | DAY | HOUR | MIN | SEC | MILLIS | DATETIME
  | LAT | LON | ALT | SPEED | HEAD | SATS | PDOP | FIX | GEOFSTAT
  | USERVAL1 | USERVAL2 | USERVAL3 | USERVAL4
  | USERVAL5 | USERVAL6 | USERVAL7 | USERVAL8
  | MOFIELDS | FLAGS1 | FLAGS2 | DEST
  | HIPRESS | LOPRESS | HITEMP | LOTEMP | HIHUMID | LOHUMID
  | GEOFNUM
  | GEOF1LAT | GEOF1LON | GEOF1RAD | GEOF2LAT | GEOF2LON | GEOF2RAD
  | GEOF3LAT | GEOF3LON | GEOF3RAD | GEOF4LAT | GEOF4LON | GEOF4RAD
  | WAKEINT | ALARMINT | TXINT | LOWBATT | DYNMODEL
  | RBHEAD
  | USERFUNC1 | USERFUNC2 | USERFUNC3 | USERFUNC4
  | USERFUNC5 | USERFUNC6 | USERFUNC7 | USERFUNC8
  deriving DecidableEq, Repr

namespace tracker_message_fields

/-- The integer value of each enumerator, as written in the header. -/
def val : tracker_message_fields → Nat
  | STX       => 0x02
  | ETX       => 0x03
  | SWVER     => 0x04
  | SOURCE    => 0x08
  | BATTV     => 0x09
  | PRESS     => 0x0a
  | TEMP      => 0x0b
  | HUMID     => 0x0c
  | YEAR      => 0x0d
  | MONTH     => 0x0e
  | DAY       => 0x0f
  | HOUR      => 0x10
  | MIN       => 0x11
  | SEC       => 0x12
  | MILLIS    => 0x13
  | DATETIME  => 0x14
  | LAT       => 0x15
  | LON       => 0x16
  | ALT       => 0x17
  | SPEED     => 0x18
  | HEAD      => 0x19
  | SATS      => 0x1a
  | PDOP      => 0x1b
  | FIX       => 0x1c
  | GEOFSTAT  => 0x1d
  | USERVAL1  => 0x20
  | USERVAL2  => 0x21
  | USERVAL3  => 0x22
  | USERVAL4  => 0x23
  | USERVAL5  => 0x24
  | USERVAL6  => 0x25
  | USERVAL7  => 0x26
  | USERVAL8  => 0x27
  | MOFIELDS  => 0x30
  | FLAGS1    => 0x31
  | FLAGS2    => 0x32
  | DEST      => 0x33
  | HIPRESS   => 0x34
  | LOPRESS   => 0x35
  | HITEMP    => 0x36
  | LOTEMP    => 0x37
  | HIHUMID   => 0x38
  | LOHUMID   => 0x39
  | GEOFNUM   => 0x3a
  | GEOF1LAT  => 0x3b
  | GEOF1LON  => 0x3c
  | GEOF1RAD  => 0x3d
  | GEOF2LAT  => 0x3e
  | GEOF2LON  => 0x3f
  | GEOF2RAD  => 0x40
  | GEOF3LAT  => 0x41
  | GEOF3LON  => 0x42
  | GEOF3RAD  => 0x43
  | GEOF4LAT  => 0x44
  | GEOF4LON  => 0x45
  | GEOF4RAD  => 0x46
  | WAKEINT   => 0x47
  | ALARMINT  => 0x48
  | TXINT     => 0x49
  | LOWBATT   => 0x4a
  | DYNMODEL  => 0x4b
  | RBHEAD    => 0x52
  | USERFUNC1 => 0x58
  | USERFUNC2 => 0x59
  | USERFUNC3 => 0x5a
  | USERFUNC4 => 0x5b
  | USERFUNC5 => 0x5c
  | USERFUNC6 => 0x5d
  | USERFUNC7 => 0x5e
  | USERFUNC8 => 0x5f

/-- Every enumerator of `tracker_message_fields`, in declaration order. -/
def all : List tracker_message_fields :=
  [ STX, ETX, SWVER, SOURCE, BATTV, PRESS, TEMP, HUMID,
    YEAR, MONTH, DAY, HOUR, MIN, SEC, MILLIS, DATETIME,
    LAT, LON, ALT, SPEED, HEAD, SATS, PDOP, FIX, GEOFSTAT,
    USERVAL1, USERVAL2, USERVAL3, USERVAL4,
    USERVAL5, USERVAL6, USERVAL7, USERVAL8,
    MOFIELDS, FLAGS1, FLAGS2, DEST,
    HIPRESS, LOPRESS, HITEMP, LOTEMP, HIHUMID, LOHUMID,
    GEOFNUM,
    GEOF1LAT, GEOF1LON, GEOF1RAD, GEOF2LAT, GEOF2LON, GEOF2RAD,
    GEOF3LAT, GEOF3LON, GEOF3RAD, GEOF4LAT, GEOF4LON, GEOF4RAD,
    WAKEINT, ALARMINT, TXINT, LOWBATT, DYNMODEL,
    RBHEAD,
    USERFUNC1, USERFUNC2, USERFUNC3, USERFUNC4,
    USERFUNC5, USERFUNC6, USERFUNC7, USERFUNC8 ]

end tracker_message_fields

/-! ## The width table (lines 345-348 and 441-514) -/

/-- The struct `ID_width`: two `uint8_t` members. -/
structure ID_width where
  ID : Nat
  data_width : Nat
  deriving DecidableEq, Repr

def NUM_ID_WIDTHS : Nat := 70

open tracker_message_fields in
/-- The initialisers of the array `ID_widths[NUM_ID_WIDTHS]`, in source order.
The `ID` member is a `uint8_t` initialised with the enumerator's value. -/
def ID_widths : List ID_width :=
  [ ⟨STX.val       , 0 ⟩,
    ⟨ETX.val       , 0 ⟩,
    ⟨SWVER.val     , 1 ⟩,
    ⟨SOURCE.val    , 4 ⟩,
    ⟨BATTV.val     , 2 ⟩,
    ⟨PRESS.val     , 2 ⟩,
    ⟨TEMP.val      , 2 ⟩,
    ⟨HUMID.val     , 2 ⟩,
    ⟨YEAR.val      , 2 ⟩,
    ⟨MONTH.val     , 1 ⟩,
    ⟨DAY.val       , 1 ⟩,
    ⟨HOUR.val      , 1 ⟩,
    ⟨MIN.val       , 1 ⟩,
    ⟨SEC.val       , 1 ⟩,
    ⟨MILLIS.val    , 2 ⟩,
    ⟨DATETIME.val  , 7 ⟩,
    ⟨LAT.val       , 4 ⟩,
    ⟨LON.val       , 4 ⟩,
    ⟨ALT.val       , 4 ⟩,
    ⟨SPEED.val     , 4 ⟩,
    ⟨HEAD.val      , 4 ⟩,
    ⟨SATS.val      , 1 ⟩,
    ⟨PDOP.val      , 2 ⟩,
    ⟨FIX.val       , 1 ⟩,
    ⟨GEOFSTAT.val  , 3 ⟩,
    ⟨USERVAL1.val  , 1 ⟩,
    ⟨USERVAL2.val  , 1 ⟩,
    ⟨USERVAL3.val  , 2 ⟩,
    ⟨USERVAL4.val  , 2 ⟩,
    ⟨USERVAL5.val  , 4 ⟩,
    ⟨USERVAL6.val  , 4 ⟩,
    ⟨USERVAL7.val  , 4 ⟩,
    ⟨USERVAL8.val  , 4 ⟩,
    ⟨MOFIELDS.val  , 12 ⟩,
    ⟨FLAGS1.val    , 1 ⟩,
    ⟨FLAGS2.val    , 1 ⟩,
    ⟨DEST.val      , 4 ⟩,
    ⟨HIPRESS.val   , 2 ⟩,
    ⟨LOPRESS.val   , 2 ⟩,
    ⟨HITEMP.val    , 2 ⟩,
    ⟨LOTEMP.val    , 2 ⟩,
    ⟨HIHUMID.val   , 2 ⟩,
    ⟨LOHUMID.val   , 2 ⟩,
    ⟨GEOFNUM.val   , 1 ⟩,
    ⟨GEOF1LAT.val  , 4 ⟩,
    ⟨GEOF1LON.val  , 4 ⟩,
    ⟨GEOF1RAD.val  , 4 ⟩,
    ⟨GEOF2LAT.val  , 4 ⟩,
    ⟨GEOF2LON.val  , 4 ⟩,
    ⟨GEOF2RAD.val  , 4 ⟩,
    ⟨GEOF3LAT.val  , 4 ⟩,
    ⟨GEOF3LON.val  , 4 ⟩,
    ⟨GEOF3RAD.val  , 4 ⟩,
    ⟨GEOF4LAT.val  , 4 ⟩,
    ⟨GEOF4LON.val  , 4 ⟩,
    ⟨GEOF4RAD.val  , 4 ⟩,
    ⟨WAKEINT.val   , 4 ⟩,
    ⟨ALARMINT.val  , 2 ⟩,
    ⟨TXINT.val     , 2 ⟩,
    ⟨LOWBATT.val   , 2 ⟩,
    ⟨DYNMODEL.val  , 1 ⟩,
    ⟨RBHEAD.val    , 4 ⟩,
    ⟨USERFUNC1.val , 0 ⟩,
    ⟨USERFUNC2.val , 0 ⟩,
    ⟨USERFUNC3.val , 0 ⟩,
    ⟨USERFUNC4.val , 0 ⟩,
    ⟨USERFUNC5.val , 2 ⟩,
    ⟨USERFUNC6.val , 2 ⟩,
    ⟨USERFUNC7.val , 4 ⟩,
    ⟨USERFUNC8.val , 4 ⟩ ]

/-! ## Storage lengths of the fields kept in EEPROM (lines 15-51) -/

def LEN_STX : Nat := LEN_BYTE
def LEN_SWVER : Nat := LEN_BYTE
def LEN_SOURCE : Nat := LEN_INT32
def LEN_MOFIELDS0 : Nat := LEN_INT32
def LEN_MOFIELDS1 : Nat := LEN_INT32
def LEN_MOFIELDS2 : Nat := LEN_INT32
def LEN_FLAGS1 : Nat := LEN_BYTE
def LEN_FLAGS2 : Nat := LEN_BYTE
def LEN_DEST : Nat := LEN_INT32
def LEN_HIPRESS : Nat := LEN_INT16
def LEN_LOPRESS : Nat := LEN_INT16
def LEN_HITEMP : Nat := LEN_INT16
def LEN_LOTEMP : Nat := LEN_INT16
def LEN_HIHUMID : Nat := LEN_INT16
def LEN_LOHUMID : Nat := LEN_INT16
def LEN_GEOFNUM : Nat := LEN_BYTE
def LEN_GEOF1LAT : Nat := LEN_INT32
def LEN_GEOF1LON : Nat := LEN_INT32
def LEN_GEOF1RAD : Nat := LEN_INT32
def LEN_GEOF2LAT : Nat := LEN_INT32
def LEN_GEOF2LON : Nat := LEN_INT32
def LEN_GEOF2RAD : Nat := LEN_INT32
def LEN_GEOF3LAT : Nat := LEN_INT32
def LEN_GEOF3LON : Nat := LEN_INT32
def LEN_GEOF3RAD : Nat := LEN_INT32
def LEN_GEOF4LAT : Nat := LEN_INT32
def LEN_GEOF4LON : Nat := LEN_INT32
def LEN_GEOF4RAD : Nat := LEN_INT32
def LEN_WAKEINT : Nat := LEN_INT32
def LEN_ALARMINT : Nat := LEN_INT16
def LEN_TXINT : Nat := LEN_INT16
def LEN_LOWBATT : Nat := LEN_INT16
def LEN_DYNMODEL : Nat := LEN_BYTE
def LEN_ETX : Nat := LEN_BYTE
def LEN_CSUMA : Nat := LEN_BYTE
def LEN_CSUMB : Nat := LEN_BYTE

/-! ## Storage locations of the fields kept in EEPROM (lines 53-89) -/

def LOC_STX : Nat := 0
def LOC_SWVER : Nat := LOC_STX + LEN_STX
def LOC_SOURCE : Nat := LOC_SWVER + LEN_SWVER
def LOC_MOFIELDS0 : Nat := LOC_SOURCE + LEN_SOURCE
def LOC_MOFIELDS1 : Nat := LOC_MOFIELDS0 + LEN_MOFIELDS0
def LOC_MOFIELDS2 : Nat := LOC_MOFIELDS1 + LEN_MOFIELDS1
def LOC_FLAGS1 : Nat := LOC_MOFIELDS2 + LEN_MOFIELDS2
def LOC_FLAGS2 : Nat := LOC_FLAGS1 + LEN_FLAGS1
def LOC_DEST : Nat := LOC_FLAGS2 + LEN_FLAGS2
def LOC_HIPRESS : Nat := LOC_DEST + LEN_DEST
def LOC_LOPRESS : Nat := LOC_HIPRESS + LEN_HIPRESS
def LOC_HITEMP : Nat := LOC_LOPRESS + LEN_LOPRESS
def LOC_LOTEMP : Nat := LOC_HITEMP + LEN_HITEMP
def LOC_HIHUMID : Nat := LOC_LOTEMP + LEN_LOTEMP
def LOC_LOHUMID : Nat := LOC_HIHUMID + LEN_HIHUMID
def LOC_GEOFNUM : Nat := LOC_LOHUMID + LEN_LOHUMID
def LOC_GEOF1LAT : Nat := LOC_GEOFNUM + LEN_GEOFNUM
def LOC_GEOF1LON : Nat := LOC_GEOF1LAT + LEN_GEOF1LAT
def LOC_GEOF1RAD : Nat := LOC_GEOF1LON + LEN_GEOF1LON
def LOC_GEOF2LAT : Nat := LOC_GEOF1RAD + LEN_GEOF1RAD
def LOC_GEOF2LON : Nat := LOC_GEOF2LAT + LEN_GEOF2LAT
def LOC_GEOF2RAD : Nat := LOC_GEOF2LON + LEN_GEOF2LON
def LOC_GEOF3LAT : Nat := LOC_GEOF2RAD + LEN_GEOF2RAD
def LOC_GEOF3LON : Nat := LOC_GEOF3LAT + LEN_GEOF3LAT
def LOC_GEOF3RAD : Nat := LOC_GEOF3LON + LEN_GEOF3LON
def LOC_GEOF4LAT : Nat := LOC_GEOF3RAD + LEN_GEOF3RAD
def LOC_GEOF4LON : Nat := LOC_GEOF4LAT + LEN_GEOF4LAT
def LOC_GEOF4RAD : Nat := LOC_GEOF4LON + LEN_GEOF4LON
def LOC_WAKEINT : Nat := LOC_GEOF4RAD + LEN_GEOF4RAD
def LOC_ALARMINT : Nat := LOC_WAKEINT + LEN_WAKEINT
def LOC_TXINT : Nat := LOC_ALARMINT + LEN_ALARMINT
def LOC_LOWBATT : Nat := LOC_TXINT + LEN_TXINT
def LOC_DYNMODEL : Nat := LOC_LOWBATT + LEN_LOWBATT
def LOC_ETX : Nat := LOC_DYNMODEL + LEN_DYNMODEL
def LOC_CSUMA : Nat := LOC_ETX + LEN_ETX
def LOC_CSUMB : Nat := LOC_CSUMA + LEN_CSUMA

/-- The persisted fields as (offset, length) pairs, in the order the header
declares their `LOC_` macros. -/
def eepromLayout : List (Nat × Nat) :=
  [ (LOC_STX, LEN_STX),
    (LOC_SWVER, LEN_SWVER),
    (LOC_SOURCE, LEN_SOURCE),
    (LOC_MOFIELDS0, LEN_MOFIELDS0),
    (LOC_MOFIELDS1, LEN_MOFIELDS1),
    (LOC_MOFIELDS2, LEN_MOFIELDS2),
    (LOC_FLAGS1, LEN_FLAGS1),
    (LOC_FLAGS2, LEN_FLAGS2),
    (LOC_DEST, LEN_DEST),
    (LOC_HIPRESS, LEN_HIPRESS),
    (LOC_LOPRESS, LEN_LOPRESS),
    (LOC_HITEMP, LEN_HITEMP),
    (LOC_LOTEMP, LEN_LOTEMP),
    (LOC_HIHUMID, LEN_HIHUMID),
    (LOC_LOHUMID, LEN_LOHUMID),
    (LOC_GEOFNUM, LEN_GEOFNUM),
    (LOC_GEOF1LAT, LEN_GEOF1LAT),
    (LOC_GEOF1LON, LEN_GEOF1LON),
    (LOC_GEOF1RAD, LEN_GEOF1RAD),
    (LOC_GEOF2LAT, LEN_GEOF2LAT),
    (LOC_GEOF2LON, LEN_GEOF2LON),
    (LOC_GEOF2RAD, LEN_GEOF2RAD),
    (LOC_GEOF3LAT, LEN_GEOF3LAT),
    (LOC_GEOF3LON, LEN_GEOF3LON),
    (LOC_GEOF3RAD, LEN_GEOF3RAD),
    (LOC_GEOF4LAT, LEN_GEOF4LAT),
    (LOC_GEOF4LON, LEN_GEOF4LON),
    (LOC_GEOF4RAD, LEN_GEOF4RAD),
    (LOC_WAKEINT, LEN_WAKEINT),
    (LOC_ALARMINT, LEN_ALARMINT),
    (LOC_TXINT, LEN_TXINT),
    (LOC_LOWBATT, LEN_LOWBATT),
    (LOC_DYNMODEL, LEN_DYNMODEL),
    (LOC_ETX, LEN_ETX),
    (LOC_CSUMA, LEN_CSUMA),
    (LOC_CSUMB, LEN_CSUMB) ]

/-! ## Bits of the three `MOFIELDS` words (lines 174-237) -/

def MOFIELDS0_SWVER : Nat := 0x08000000
def MOFIELDS0_SOURCE : Nat := 0x00800000
def MOFIELDS0_BATTV : Nat := 0x00400000
def MOFIELDS0_PRESS : Nat := 0x00200000
def MOFIELDS0_TEMP : Nat := 0x00100000
def MOFIELDS0_HUMID : Nat := 0x00080000
def MOFIELDS0_YEAR : Nat := 0x00040000
def MOFIELDS0_MONTH : Nat := 0x00020000
def MOFIELDS0_DAY : Nat := 0x00010000
def MOFIELDS0_HOUR : Nat := 0x00008000
def MOFIELDS0_MIN : Nat := 0x00004000
def MOFIELDS0_SEC : Nat := 0x00002000
def MOFIELDS0_MILLIS : Nat := 0x00001000
def MOFIELDS0_DATETIME : Nat := 0x00000800
def MOFIELDS0_LAT : Nat := 0x00000400
def MOFIELDS0_LON : Nat := 0x00000200
def MOFIELDS0_ALT : Nat := 0x00000100
def MOFIELDS0_SPEED : Nat := 0x00000080
def MOFIELDS0_HEAD : Nat := 0x00000040
def MOFIELDS0_SATS : Nat := 0x00000020
def MOFIELDS0_PDOP : Nat := 0x00000010
def MOFIELDS0_FIX : Nat := 0x00000008
def MOFIELDS0_GEOFSTAT : Nat := 0x00000004
def MOFIELDS1_USERVAL1 : Nat := 0x80000000
def MOFIELDS1_USERVAL2 : Nat := 0x40000000
def MOFIELDS1_USERVAL3 : Nat := 0x20000000
def MOFIELDS1_USERVAL4 : Nat := 0x10000000
def MOFIELDS1_USERVAL5 : Nat := 0x08000000
def MOFIELDS1_USERVAL6 : Nat := 0x04000000
def MOFIELDS1_USERVAL7 : Nat := 0x02000000
def MOFIELDS1_USERVAL8 : Nat := 0x01000000
def MOFIELDS1_MOFIELDS : Nat := 0x00008000
def MOFIELDS1_FLAGS1 : Nat := 0x00004000
def MOFIELDS1_FLAGS2 : Nat := 0x00002000
def MOFIELDS1_DEST : Nat := 0x00001000
def MOFIELDS1_HIPRESS : Nat := 0x00000800
def MOFIELDS1_LOPRESS : Nat := 0x00000400
def MOFIELDS1_HITEMP : Nat := 0x00000200
def MOFIELDS1_LOTEMP : Nat := 0x00000100
def MOFIELDS1_HIHUMID : Nat := 0x00000080
def MOFIELDS1_LOHUMID : Nat := 0x00000040
def MOFIELDS1_GEOFNUM : Nat := 0x00000020
def MOFIELDS1_GEOF1LAT : Nat := 0x00000010
def MOFIELDS1_GEOF1LON : Nat := 0x00000008
def MOFIELDS1_GEOF1RAD : Nat := 0x00000004
def MOFIELDS1_GEOF2LAT : Nat := 0x00000002
def MOFIELDS1_GEOF2LON : Nat := 0x00000001
def MOFIELDS2_GEOF2RAD : Nat := 0x80000000
def MOFIELDS2_GEOF3LAT : Nat := 0x40000000
def MOFIELDS2_GEOF3LON : Nat := 0x20000000
def MOFIELDS2_GEOF3RAD : Nat := 0x10000000
def MOFIELDS2_GEOF4LAT : Nat := 0x08000000
def MOFIELDS2_GEOF4LON : Nat := 0x04000000
def MOFIELDS2_GEOF4RAD : Nat := 0x02000000
def MOFIELDS2_WAKEINT : Nat := 0x01000000
def MOFIELDS2_ALARMINT : Nat := 0x00800000
def MOFIELDS2_TXINT : Nat := 0x00400000
def MOFIELDS2_LOWBATT : Nat := 0x00200000
def MOFIELDS2_DYNMODEL : Nat := 0x00100000

/-- One selection constant: the index of the `MOFIELDS` word it belongs to,
its value, and the message field its name refers to. -/
structure MO_binding where
  word : Nat
  bit : Nat
  field : tracker_message_fields
  deriving DecidableEq, Repr

open tracker_message_fields in
/-- Every `MOFIELDSn_NAME` constant of the header, in source order, paired with
the word index `n` and the enumerator `NAME`. -/
def MOFIELDS_bits : List MO_binding :=
  [ ⟨0, MOFIELDS0_SWVER, SWVER⟩,
    ⟨0, MOFIELDS0_SOURCE, SOURCE⟩,
    ⟨0, MOFIELDS0_BATTV, BATTV⟩,
    ⟨0, MOFIELDS0_PRESS, PRESS⟩,
    ⟨0, MOFIELDS0_TEMP, TEMP⟩,
    ⟨0, MOFIELDS0_HUMID, HUMID⟩,
    ⟨0, MOFIELDS0_YEAR, YEAR⟩,
    ⟨0, MOFIELDS0_MONTH, MONTH⟩,
    ⟨0, MOFIELDS0_DAY, DAY⟩,
    ⟨0, MOFIELDS0_HOUR, HOUR⟩,
    ⟨0, MOFIELDS0_MIN, MIN⟩,
    ⟨0, MOFIELDS0_SEC, SEC⟩,
    ⟨0, MOFIELDS0_MILLIS, MILLIS⟩,
    ⟨0, MOFIELDS0_DATETIME, DATETIME⟩,
    ⟨0, MOFIELDS0_LAT, LAT⟩,
    ⟨0, MOFIELDS0_LON, LON⟩,
    ⟨0, MOFIELDS0_ALT, ALT⟩,
    ⟨0, MOFIELDS0_SPEED, SPEED⟩,
    ⟨0, MOFIELDS0_HEAD, HEAD⟩,
    ⟨0, MOFIELDS0_SATS, SATS⟩,
    ⟨0, MOFIELDS0_PDOP, PDOP⟩,
    ⟨0, MOFIELDS0_FIX, FIX⟩,
    ⟨0, MOFIELDS0_GEOFSTAT, GEOFSTAT⟩,
    ⟨1, MOFIELDS1_USERVAL1, USERVAL1⟩,
    ⟨1, MOFIELDS1_USERVAL2, USERVAL2⟩,
    ⟨1, MOFIELDS1_USERVAL3, USERVAL3⟩,
    ⟨1, MOFIELDS1_USERVAL4, USERVAL4⟩,
    ⟨1, MOFIELDS1_USERVAL5, USERVAL5⟩,
    ⟨1, MOFIELDS1_USERVAL6, USERVAL6⟩,
    ⟨1, MOFIELDS1_USERVAL7, USERVAL7⟩,
    ⟨1, MOFIELDS1_USERVAL8, USERVAL8⟩,
    ⟨1, MOFIELDS1_MOFIELDS, MOFIELDS⟩,
    ⟨1, MOFIELDS1_FLAGS1, FLAGS1⟩,
    ⟨1, MOFIELDS1_FLAGS2, FLAGS2⟩,
    ⟨1, MOFIELDS1_DEST, DEST⟩,
    ⟨1, MOFIELDS1_HIPRESS, HIPRESS⟩,
    ⟨1, MOFIELDS1_LOPRESS, LOPRESS⟩,
    ⟨1, MOFIELDS1_HITEMP, HITEMP⟩,
    ⟨1, MOFIELDS1_LOTEMP, LOTEMP⟩,
    ⟨1, MOFIELDS1_HIHUMID, HIHUMID⟩,
    ⟨1, MOFIELDS1_LOHUMID, LOHUMID⟩,
    ⟨1, MOFIELDS1_GEOFNUM, GEOFNUM⟩,
    ⟨1, MOFIELDS1_GEOF1LAT, GEOF1LAT⟩,
    ⟨1, MOFIELDS1_GEOF1LON, GEOF1LON⟩,
    ⟨1, MOFIELDS1_GEOF1RAD, GEOF1RAD⟩,
    ⟨1, MOFIELDS1_GEOF2LAT, GEOF2LAT⟩,
    ⟨1, MOFIELDS1_GEOF2LON, GEOF2LON⟩,
    ⟨2, MOFIELDS2_GEOF2RAD, GEOF2RAD⟩,
    ⟨2, MOFIELDS2_GEOF3LAT, GEOF3LAT⟩,
    ⟨2, MOFIELDS2_GEOF3LON, GEOF3LON⟩,
    ⟨2, MOFIELDS2_GEOF3RAD, GEOF3RAD⟩,
    ⟨2, MOFIELDS2_GEOF4LAT, GEOF4LAT⟩,
    ⟨2, MOFIELDS2_GEOF4LON, GEOF4LON⟩,
    ⟨2, MOFIELDS2_GEOF4RAD, GEOF4RAD⟩,
    ⟨2, MOFIELDS2_WAKEINT, WAKEINT⟩,
    ⟨2, MOFIELDS2_ALARMINT, ALARMINT⟩,
    ⟨2, MOFIELDS2_TXINT, TXINT⟩,
    ⟨2, MOFIELDS2_LOWBATT, LOWBATT⟩,
    ⟨2, MOFIELDS2_DYNMODEL, DYNMODEL⟩ ]

open tracker_message_fields in
/-- The identifiers that have both an entry in `ID_widths` and a `LEN_` storage
length, each paired with that storage length, in EEPROM order.  The three words
`MOFIELDS0..2` are stored one after the other and belong to the one identifier
`MOFIELDS`. -/
def storedFieldLengths : List (tracker_message_fields × Nat) :=
  [ (STX, LEN_STX),
    (SWVER, LEN_SWVER),
    (SOURCE, LEN_SOURCE),
    (MOFIELDS, LEN_MOFIELDS0 + LEN_MOFIELDS1 + LEN_MOFIELDS2),
    (FLAGS1, LEN_FLAGS1),
    (FLAGS2, LEN_FLAGS2),
    (DEST, LEN_DEST),
    (HIPRESS, LEN_HIPRESS),
    (LOPRESS, LEN_LOPRESS),
    (HITEMP, LEN_HITEMP),
    (LOTEMP, LEN_LOTEMP),
    (HIHUMID, LEN_HIHUMID),
    (LOHUMID, LEN_LOHUMID),
    (GEOFNUM, LEN_GEOFNUM),
    (GEOF1LAT, LEN_GEOF1LAT),
    (GEOF1LON, LEN_GEOF1LON),
    (GEOF1RAD, LEN_GEOF1RAD),
    (GEOF2LAT, LEN_GEOF2LAT),
    (GEOF2LON, LEN_GEOF2LON),
    (GEOF2RAD, LEN_GEOF2RAD),
    (GEOF3LAT, LEN_GEOF3LAT),
    (GEOF3LON, LEN_GEOF3LON),
    (GEOF3RAD, LEN_GEOF3RAD),
    (GEOF4LAT, LEN_GEOF4LAT),
    (GEOF4LON, LEN_GEOF4LON),
    (GEOF4RAD, LEN_GEOF4RAD),
    (WAKEINT, LEN_WAKEINT),
    (ALARMINT, LEN_ALARMINT),
    (TXINT, LEN_TXINT),
    (LOWBATT, LEN_LOWBATT),
    (DYNMODEL, LEN_DYNMODEL),
    (ETX, LEN_ETX) ]

/-- The `data_width` of every entry of `ID_widths` that carries the value of
the enumerator `f`, in table order. -/
def tableWidths (f : tracker_message_fields) : List Nat :=
  (ID_widths.filter (fun e => e.ID = f.val)).map ID_width.data_width

/-! ## Default selection masks and message length limits (lines 123-125, 248-249) -/

def DEF_MOFIELDS0 : Nat := 0x00000f00
def DEF_MOFIELDS1 : Nat := 0x00000000
def DEF_MOFIELDS2 : Nat := 0x00000000

def MOLIM : Nat := 340
def MTLIM : Nat := 270

/-! ## Result values of message parsing (lines 259-268) -/

/-- The enumeration `tracker_parsing_result`: one constructor per enumerator. -/
inductive tracker_parsing_result
  | DATA_VALID
  | DATA_TOO_SHORT
  | NO_STX
  | INVALID_FIELD
  | NO_ETX
  | CHECKSUM_ERROR
  | DATA_WIDTH_INVALID
  deriving DecidableEq, Repr, Fintype

namespace tracker_parsing_result

/-- The integer value of each enumerator: `DATA_VALID = 0` is written in the
header, every later enumerator is one more than the one before it. -/
def val : tracker_parsing_result → Nat
  | DATA_VALID         => 0
  | DATA_TOO_SHORT     => 1
  | NO_STX             => 2
  | INVALID_FIELD      => 3
  | NO_ETX             => 4
  | CHECKSUM_ERROR     => 5
  | DATA_WIDTH_INVALID => 6

/-- Every enumerator of `tracker_parsing_result`, in declaration order. -/
def all : List tracker_parsing_result :=
  [ DATA_VALID, DATA_TOO_SHORT, NO_STX, INVALID_FIELD, NO_ETX, CHECKSUM_ERROR,
    DATA_WIDTH_INVALID ]

end tracker_parsing_result

/-- The failure kinds that section 7 of the specification lists as enumerated
result codes, named as the specification names them. -/
inductive SpecFailureKind
  | DataTooShort
  | NoStx
  | InvalidField
  | NoEtx
  | ChecksumError
  | DataWidthInvalid
  | UnknownField
  | CorruptImage
  | MessageTooLong
  deriving DecidableEq, Repr, Fintype

/-- Every failure kind of the specification, in the order it lists them. -/
def SpecFailureKind.all : List SpecFailureKind :=
  [ .DataTooShort, .NoStx, .InvalidField, .NoEtx, .ChecksumError,
    .DataWidthInvalid, .UnknownField, .CorruptImage, .MessageTooLong ]

/-- The enumerator of `tracker_parsing_result` that bears the name of a failure
kind of the specification, when the header declares one. -/
def enumeratorOf : SpecFailureKind → Option tracker_parsing_result
  | .DataTooShort     => some .DATA_TOO_SHORT
  | .NoStx            => some .NO_STX
  | .InvalidField     => some .INVALID_FIELD
  | .NoEtx            => some .NO_ETX
  | .ChecksumError    => some .CHECKSUM_ERROR
  | .DataWidthInvalid => some .DATA_WIDTH_INVALID
  | .UnknownField     => none
  | .CorruptImage     => none
  | .MessageTooLong   => none

/-! ## Dictionary lookup and outbound frame length -/

/-- The failure of a dictionary lookup. -/
inductive LookupError
  | UnknownField
  deriving DecidableEq, Repr

/-- Modelled from the spec: the lookup `widthOf(identifier) -> byteWidth` of
section 4.1, whose code is not part of the two headers.  It scans `ID_widths`
from its first entry for the tag and returns the `data_width` of the first entry
that carries it; it fails with `UnknownField` when no entry does. -/
def widthOf (tag : Nat) : Except LookupError Nat :=
  match ID_widths.find? (fun e => e.ID = tag) with
  | some e => .ok e.data_width
  | none   => .error .UnknownField

/-- The C test `mask & bit`: true when `mask` and `bit` share a set bit. -/
def bitIsSet (mask bit : Nat) : Bool :=
  (mask &&& bit) != 0

/-- The word `MOFIELDS[n]` of the selection masks `MOFIELDS[0..2]`. -/
def maskWord (m0 m1 m2 : Nat) : Nat → Nat
  | 0 => m0
  | 1 => m1
  | _ => m2

/-- The selection constants whose bit is set in the masks `MOFIELDS[0..2]`. -/
def selectedBits (m0 m1 m2 : Nat) : List MO_binding :=
  MOFIELDS_bits.filter (fun b => bitIsSet (maskWord m0 m1 m2 b.word) b.bit)

/-- The number of payload bytes the dictionary gives a field (none when the
lookup fails). -/
def fieldWidth (f : tracker_message_fields) : Nat :=
  match widthOf f.val with
  | .ok w    => w
  | .error _ => 0

/-- Modelled from the spec: the length of the binary MO frame the encoder of
section 4.3 produces, whose code is not part of the two headers: one byte for
the frame-start marker, for every selected field one tag byte followed by as
many bytes as the dictionary gives the field, one byte for the frame-end marker
and two checksum bytes. -/
def moFrameLength (m0 m1 m2 : Nat) : Nat :=
  1 + ((selectedBits m0 m1 m2).map (fun b => 1 + fieldWidth b.field)).sum + 1 + 2

/-! ## Limits of the fixed-width integer types -/

/-- The limit `UINT8_MAX` of `stdint.h`; the header's comment gives it as 255. -/
def UINT8_MAX : Int := 255

/-- The limit `UINT16_MAX` of `stdint.h`; the header's comment gives it as 65535. -/
def UINT16_MAX : Int := 65535

/-- The limit `INT16_MIN` of `stdint.h`; the header's comment gives it as -32768. -/
def INT16_MIN : Int := -32768

/-- The limit `INT32_MIN` of `stdint.h`; the header's comment gives it as
-2147483648. -/
def INT32_MIN : Int := -2147483648

/-! ## Default values of the message fields (lines 91-153) -/

/-- The value a `DEF_` macro stands for: an integer, a floating-point literal
(kept as the rational it denotes), or an identifier that these headers do not
define. -/
inductive DefValue
  | int (v : Int)
  | float (q : ℚ)
  | named (identifier : String)

def DEF_STX : Int := 0x02
def DEF_SWVER : Int := 0x21
def DEF_SOURCE : Int := 0
def DEF_BATTV : Int := 500
def DEF_PRESS : Int := UINT16_MAX
def DEF_TEMP : Int := INT16_MIN
def DEF_HUMID : Int := UINT16_MAX
def DEF_YEAR : Int := 0
def DEF_MONTH : Int := 0
def DEF_DAY : Int := 0
def DEF_HOUR : Int := UINT8_MAX
def DEF_MIN : Int := UINT8_MAX
def DEF_SEC : Int := UINT8_MAX
def DEF_MILLIS : Int := UINT16_MAX
def DEF_LAT : Int := INT32_MIN
def DEF_LON : Int := INT32_MIN
def DEF_ALT : Int := INT32_MIN
def DEF_SPEED : Int := 0
def DEF_HEAD : Int := 0
def DEF_SATS : Int := 0
def DEF_PDOP : Int := 0
def DEF_FIX : Int := 0
def DEF_GEOFSTAT : Int := 0
def DEF_USERVAL1 : Int := 0
def DEF_USERVAL2 : Int := 0
def DEF_USERVAL3 : Int := 0
def DEF_USERVAL4 : Int := 0
def DEF_USERVAL5 : Int := 0
def DEF_USERVAL6 : Int := 0
def DEF_USERVAL7 : ℚ := 0.0
def DEF_USERVAL8 : ℚ := 0.0
def DEF_FLAGS1 : Int := 0
def DEF_FLAGS2 : Int := 0
def DEF_DEST : Int := 0
def DEF_HIPRESS : Int := 1084
def DEF_LOPRESS : Int := 0
def DEF_HITEMP : Int := 8500
def DEF_LOTEMP : Int := -4000
def DEF_HIHUMID : Int := 10000
def DEF_LOHUMID : Int := 0
def DEF_GEOFNUM : Int := 0
def DEF_GEOF1LAT : Int := 0
def DEF_GEOF1LON : Int := 0
def DEF_GEOF1RAD : Int := 0
def DEF_GEOF2LAT : Int := 0
def DEF_GEOF2LON : Int := 0
def DEF_GEOF2RAD : Int := 0
def DEF_GEOF3LAT : Int := 0
def DEF_GEOF3LON : Int := 0
def DEF_GEOF3RAD : Int := 0
def DEF_GEOF4LAT : Int := 0
def DEF_GEOF4LON : Int := 0
def DEF_GEOF4RAD : Int := 0
def DEF_WAKEINT : Int := 60
def DEF_ALARMINT : Int := 5
def DEF_TXINT : Int := 5
def DEF_LOWBATT : Int := 320
def DEF_DYNMODEL : DefValue := .named "DYN_MODEL_PORTABLE"
def DEF_ETX : Int := 0x03

/-! ## Serial receive timeouts and flag bits (lines 155-172, 239-246) -/

def CHECK_SERIAL_TIMEOUT : Nat := 10
def RX_IDLE_TIMEOUT : Nat := 1

def FLAGS1_BINARY : Nat := 0x80
def FLAGS1_DEST : Nat := 0x40
def FLAGS1_HIPRESS : Nat := 0x20
def FLAGS1_LOPRESS : Nat := 0x10
def FLAGS1_HITEMP : Nat := 0x08
def FLAGS1_LOTEMP : Nat := 0x04
def FLAGS1_HIHUMID : Nat := 0x02
def FLAGS1_LOHUMID : Nat := 0x01
def FLAGS2_GEOFENCE : Nat := 0x80
def FLAGS2_INSIDE : Nat := 0x40
def FLAGS2_LOWBATT : Nat := 0x20
def FLAGS2_RING : Nat := 0x10
def ALARM_HIPRESS : Nat := 0x01
def ALARM_LOPRESS : Nat := 0x02
def ALARM_HITEMP : Nat := 0x04
def ALARM_LOTEMP : Nat := 0x08
def ALARM_HIHUMID : Nat := 0x10
def ALARM_LOHUMID : Nat := 0x20
def ALARM_LOBATT : Nat := 0x40

/-- The `FLAGS1_` constants, in source order. -/
def FLAGS1_bits : List Nat :=
  [ FLAGS1_BINARY, FLAGS1_DEST, FLAGS1_HIPRESS, FLAGS1_LOPRESS, FLAGS1_HITEMP, FLAGS1_LOTEMP, FLAGS1_HIHUMID, FLAGS1_LOHUMID ]

/-- The `FLAGS2_` constants, in source order. -/
def FLAGS2_bits : List Nat :=
  [ FLAGS2_GEOFENCE, FLAGS2_INSIDE, FLAGS2_LOWBATT, FLAGS2_RING ]

/-- The `ALARM_` constants, in source order. -/
def ALARM_bits : List Nat :=
  [ ALARM_HIPRESS, ALARM_LOPRESS, ALARM_HITEMP, ALARM_LOTEMP, ALARM_HIHUMID, ALARM_LOHUMID, ALARM_LOBATT ]

/-! ## Status of serial data receive (lines 251-257) -/

/-- The enumeration `tracker_serial_rx_status`: one constructor per enumerator. -/
inductive tracker_serial_rx_status
  | DATA_NOT_SEEN
  | DATA_SEEN
  | DATA_RECEIVED
  | DATA_TIMEOUT
  deriving DecidableEq, Repr

namespace tracker_serial_rx_status

/-- The integer value of each enumerator: `DATA_NOT_SEEN = 0` is written in the
header, every later enumerator is one more than the one before it. -/
def val : tracker_serial_rx_status → Nat
  | DATA_NOT_SEEN => 0
  | DATA_SEEN     => 1
  | DATA_RECEIVED => 2
  | DATA_TIMEOUT  => 3

/-- Every enumerator of `tracker_serial_rx_status`, in declaration order. -/
def all : List tracker_serial_rx_status :=
  [ DATA_NOT_SEEN, DATA_SEEN, DATA_RECEIVED, DATA_TIMEOUT ]

end tracker_serial_rx_status

/-! ## The settings struct (lines 376-439) -/

/-- The type of a member of `trackerSettings`.  A member declared with one of
the unions `union_uint16t`, `union_int16t`, `union_uint32t`, `union_int32t`,
`union_float` has the type of the union's `the_data`; `dynModel` is an
enumeration of the GNSS library. -/
inductive CType
  | byte
  | uint16_t
  | int16_t
  | uint32_t
  | int32_t
  | float
  | dynModel
  deriving DecidableEq, Repr

/-- The least and greatest value of each integer type. -/
def CType.range : CType → Option (Int × Int)
  | .byte     => some (0, 255)
  | .uint16_t => some (0, 65535)
  | .int16_t  => some (-32768, 32767)
  | .uint32_t => some (0, 2 ^ 32 - 1)
  | .int32_t  => some (-2 ^ 31, 2 ^ 31 - 1)
  | .float    => none
  | .dynModel => none

/-- One member of `trackerSettings`: its name (every member is named after a
message field), its type, and the number of elements (1 when the member is not
an array). -/
structure Member where
  field : tracker_message_fields
  type : CType
  count : Nat
  deriving DecidableEq, Repr

open tracker_message_fields in
/-- The members of the struct `trackerSettings`, in declaration order. -/
def trackerSettings : List Member :=
  [ ⟨STX, .byte, 1⟩,
    ⟨SWVER, .byte, 1⟩,
    ⟨SOURCE, .uint32_t, 1⟩,
    ⟨BATTV, .uint16_t, 1⟩,
    ⟨PRESS, .uint16_t, 1⟩,
    ⟨TEMP, .int16_t, 1⟩,
    ⟨HUMID, .uint16_t, 1⟩,
    ⟨YEAR, .uint16_t, 1⟩,
    ⟨MONTH, .byte, 1⟩,
    ⟨DAY, .byte, 1⟩,
    ⟨HOUR, .byte, 1⟩,
    ⟨MIN, .byte, 1⟩,
    ⟨SEC, .byte, 1⟩,
    ⟨MILLIS, .uint16_t, 1⟩,
    ⟨LAT, .int32_t, 1⟩,
    ⟨LON, .int32_t, 1⟩,
    ⟨ALT, .int32_t, 1⟩,
    ⟨SPEED, .int32_t, 1⟩,
    ⟨HEAD, .int32_t, 1⟩,
    ⟨SATS, .byte, 1⟩,
    ⟨PDOP, .uint16_t, 1⟩,
    ⟨FIX, .byte, 1⟩,
    ⟨GEOFSTAT, .byte, 3⟩,
    ⟨USERVAL1, .byte, 1⟩,
    ⟨USERVAL2, .byte, 1⟩,
    ⟨USERVAL3, .uint16_t, 1⟩,
    ⟨USERVAL4, .uint16_t, 1⟩,
    ⟨USERVAL5, .uint32_t, 1⟩,
    ⟨USERVAL6, .uint32_t, 1⟩,
    ⟨USERVAL7, .float, 1⟩,
    ⟨USERVAL8, .float, 1⟩,
    ⟨MOFIELDS, .uint32_t, 3⟩,
    ⟨FLAGS1, .byte, 1⟩,
    ⟨FLAGS2, .byte, 1⟩,
    ⟨DEST, .uint32_t, 1⟩,
    ⟨HIPRESS, .uint16_t, 1⟩,
    ⟨LOPRESS, .uint16_t, 1⟩,
    ⟨HITEMP, .int16_t, 1⟩,
    ⟨LOTEMP, .int16_t, 1⟩,
    ⟨HIHUMID, .uint16_t, 1⟩,
    ⟨LOHUMID, .uint16_t, 1⟩,
    ⟨GEOFNUM, .byte, 1⟩,
    ⟨GEOF1LAT, .int32_t, 1⟩,
    ⟨GEOF1LON, .int32_t, 1⟩,
    ⟨GEOF1RAD, .uint32_t, 1⟩,
    ⟨GEOF2LAT, .int32_t, 1⟩,
    ⟨GEOF2LON, .int32_t, 1⟩,
    ⟨GEOF2RAD, .uint32_t, 1⟩,
    ⟨GEOF3LAT, .int32_t, 1⟩,
    ⟨GEOF3LON, .int32_t, 1⟩,
    ⟨GEOF3RAD, .uint32_t, 1⟩,
    ⟨GEOF4LAT, .int32_t, 1⟩,
    ⟨GEOF4LON, .int32_t, 1⟩,
    ⟨GEOF4RAD, .uint32_t, 1⟩,
    ⟨WAKEINT, .uint32_t, 1⟩,
    ⟨ALARMINT, .uint16_t, 1⟩,
    ⟨TXINT, .uint16_t, 1⟩,
    ⟨LOWBATT, .uint16_t, 1⟩,
    ⟨DYNMODEL, .dynModel, 1⟩,
    ⟨ETX, .byte, 1⟩ ]

/-- One `DEF_` macro: the member it is named after, the element of that member
(0 unless the macro name carries an element number, as `DEF_MOFIELDS1` does),
and its value. -/
structure DefEntry where
  field : tracker_message_fields
  index : Nat
  value : DefValue

open tracker_message_fields in
/-- Every `DEF_` macro of the header, in source order. -/
def defaultsTable : List DefEntry :=
  [ ⟨STX, 0, .int DEF_STX⟩,
    ⟨SWVER, 0, .int DEF_SWVER⟩,
    ⟨SOURCE, 0, .int DEF_SOURCE⟩,
    ⟨BATTV, 0, .int DEF_BATTV⟩,
    ⟨PRESS, 0, .int DEF_PRESS⟩,
    ⟨TEMP, 0, .int DEF_TEMP⟩,
    ⟨HUMID, 0, .int DEF_HUMID⟩,
    ⟨YEAR, 0, .int DEF_YEAR⟩,
    ⟨MONTH, 0, .int DEF_MONTH⟩,
    ⟨DAY, 0, .int DEF_DAY⟩,
    ⟨HOUR, 0, .int DEF_HOUR⟩,
    ⟨MIN, 0, .int DEF_MIN⟩,
    ⟨SEC, 0, .int DEF_SEC⟩,
    ⟨MILLIS, 0, .int DEF_MILLIS⟩,
    ⟨LAT, 0, .int DEF_LAT⟩,
    ⟨LON, 0, .int DEF_LON⟩,
    ⟨ALT, 0, .int DEF_ALT⟩,
    ⟨SPEED, 0, .int DEF_SPEED⟩,
    ⟨HEAD, 0, .int DEF_HEAD⟩,
    ⟨SATS, 0, .int DEF_SATS⟩,
    ⟨PDOP, 0, .int DEF_PDOP⟩,
    ⟨FIX, 0, .int DEF_FIX⟩,
    ⟨GEOFSTAT, 0, .int DEF_GEOFSTAT⟩,
    ⟨USERVAL1, 0, .int DEF_USERVAL1⟩,
    ⟨USERVAL2, 0, .int DEF_USERVAL2⟩,
    ⟨USERVAL3, 0, .int DEF_USERVAL3⟩,
    ⟨USERVAL4, 0, .int DEF_USERVAL4⟩,
    ⟨USERVAL5, 0, .int DEF_USERVAL5⟩,
    ⟨USERVAL6, 0, .int DEF_USERVAL6⟩,
    ⟨USERVAL7, 0, .float DEF_USERVAL7⟩,
    ⟨USERVAL8, 0, .float DEF_USERVAL8⟩,
    ⟨MOFIELDS, 0, .int (DEF_MOFIELDS0 : Nat)⟩,
    ⟨MOFIELDS, 1, .int (DEF_MOFIELDS1 : Nat)⟩,
    ⟨MOFIELDS, 2, .int (DEF_MOFIELDS2 : Nat)⟩,
    ⟨FLAGS1, 0, .int DEF_FLAGS1⟩,
    ⟨FLAGS2, 0, .int DEF_FLAGS2⟩,
    ⟨DEST, 0, .int DEF_DEST⟩,
    ⟨HIPRESS, 0, .int DEF_HIPRESS⟩,
    ⟨LOPRESS, 0, .int DEF_LOPRESS⟩,
    ⟨HITEMP, 0, .int DEF_HITEMP⟩,
    ⟨LOTEMP, 0, .int DEF_LOTEMP⟩,
    ⟨HIHUMID, 0, .int DEF_HIHUMID⟩,
    ⟨LOHUMID, 0, .int DEF_LOHUMID⟩,
    ⟨GEOFNUM, 0, .int DEF_GEOFNUM⟩,
    ⟨GEOF1LAT, 0, .int DEF_GEOF1LAT⟩,
    ⟨GEOF1LON, 0, .int DEF_GEOF1LON⟩,
    ⟨GEOF1RAD, 0, .int DEF_GEOF1RAD⟩,
    ⟨GEOF2LAT, 0, .int DEF_GEOF2LAT⟩,
    ⟨GEOF2LON, 0, .int DEF_GEOF2LON⟩,
    ⟨GEOF2RAD, 0, .int DEF_GEOF2RAD⟩,
    ⟨GEOF3LAT, 0, .int DEF_GEOF3LAT⟩,
    ⟨GEOF3LON, 0, .int DEF_GEOF3LON⟩,
    ⟨GEOF3RAD, 0, .int DEF_GEOF3RAD⟩,
    ⟨GEOF4LAT, 0, .int DEF_GEOF4LAT⟩,
    ⟨GEOF4LON, 0, .int DEF_GEOF4LON⟩,
    ⟨GEOF4RAD, 0, .int DEF_GEOF4RAD⟩,
    ⟨WAKEINT, 0, .int DEF_WAKEINT⟩,
    ⟨ALARMINT, 0, .int DEF_ALARMINT⟩,
    ⟨TXINT, 0, .int DEF_TXINT⟩,
    ⟨LOWBATT, 0, .int DEF_LOWBATT⟩,
    ⟨DYNMODEL, 0, DEF_DYNMODEL⟩,
    ⟨ETX, 0, .int DEF_ETX⟩ ]

/-! ## Defaults against the members they initialise -/

/-- The elements of a member that have a `DEF_` macro of their own: every
element of `MOFIELDS`, and for any other member the member as a whole. -/
def defaultKeys (m : Member) : List (tracker_message_fields × Nat) :=
  if m.field = .MOFIELDS then (List.range m.count).map (fun i => (m.field, i))
  else [(m.field, 0)]

/-- The member of `trackerSettings` with the given name. -/
def memberOf (f : tracker_message_fields) : Option Member :=
  trackerSettings.find? (fun m => m.field = f)

/-- The member with the given name has one of the five integer types. -/
def isIntegerMember (f : tracker_message_fields) : Bool :=
  match memberOf f with
  | some m => m.type.range.isSome
  | none   => false

/-- The value lies between the least and the greatest value of the type. -/
def inRangeOf (t : CType) (v : Int) : Bool :=
  match t.range with
  | some (lo, hi) => decide (lo ≤ v) && decide (v ≤ hi)
  | none          => false

/-- The value can be written in `w` bytes: as an unsigned number for the
unsigned types, in two's complement for the signed ones. -/
def fitsBytes (t : CType) (w : Nat) (v : Int) : Bool :=
  match t with
  | .byte | .uint16_t | .uint32_t => decide (0 ≤ v) && decide (v < 256 ^ w)
  | .int16_t | .int32_t           => decide (-(256 ^ w) ≤ 2 * v) && decide (2 * v < 256 ^ w)
  | .float | .dynModel            => false

/-- The bytes `ID_widths` assigns to one element of a member: the width of the
field shared equally among its elements. -/
def bytesPerElement (m : Member) : Nat :=
  (tableWidths m.field).sum / m.count

/-- The default is an integer within the range of its member's type. -/
def defaultInRange (d : DefEntry) : Bool :=
  match memberOf d.field, d.value with
  | some m, .int v => inRangeOf m.type v
  | _, _           => false

/-- The default is an integer that can be written in the bytes `ID_widths`
assigns to an element of its member. -/
def defaultFitsWidth (d : DefEntry) : Bool :=
  match memberOf d.field, d.value with
  | some m, .int v => fitsBytes m.type (bytesPerElement m) v
  | _, _           => false

/-! ## Reception of serial data -/

/-- What one observation of the receive loop finds: a byte has arrived, or one
time unit has passed without a byte. -/
inductive RxEvent
  | byteArrived
  | unitElapsed
  deriving DecidableEq, Repr

/-- The state of a reception: its status, the time units since it started and
the time units since the last byte. -/
structure RxState where
  status : tracker_serial_rx_status
  elapsed : Nat
  idle : Nat
  deriving DecidableEq, Repr

/-- A reception starts in `DATA_NOT_SEEN` with no time passed. -/
def rxInit : RxState := ⟨.DATA_NOT_SEEN, 0, 0⟩

/-- Modelled from the spec: the reception state machine of section 4.4, whose
code is not part of the two headers.  The first byte takes `DATA_NOT_SEEN` to
`DATA_SEEN`; `DATA_SEEN` goes to `DATA_RECEIVED` once no byte has arrived for
`RX_IDLE_TIMEOUT` time units or `CHECK_SERIAL_TIMEOUT` time units have passed
in all; `DATA_NOT_SEEN` goes to `DATA_TIMEOUT` once `CHECK_SERIAL_TIMEOUT` time
units have passed; `DATA_RECEIVED` and `DATA_TIMEOUT` are terminal. -/
def rxStep (s : RxState) : RxEvent → RxState
  | .byteArrived =>
    match s.status with
    | .DATA_NOT_SEEN => ⟨.DATA_SEEN, s.elapsed, 0⟩
    | .DATA_SEEN     => ⟨.DATA_SEEN, s.elapsed, 0⟩
    | _              => s
  | .unitElapsed =>
    match s.status with
    | .DATA_SEEN =>
      if RX_IDLE_TIMEOUT ≤ s.idle + 1 ∨ CHECK_SERIAL_TIMEOUT ≤ s.elapsed + 1 then
        ⟨.DATA_RECEIVED, s.elapsed + 1, s.idle + 1⟩
      else ⟨.DATA_SEEN, s.elapsed + 1, s.idle + 1⟩
    | .DATA_NOT_SEEN =>
      if CHECK_SERIAL_TIMEOUT ≤ s.elapsed + 1 then
        ⟨.DATA_TIMEOUT, s.elapsed + 1, s.idle + 1⟩
      else ⟨.DATA_NOT_SEEN, s.elapsed + 1, s.idle + 1⟩
    | _ => s

/-- The state after a sequence of observations. -/
def rxRun (s : RxState) (events : List RxEvent) : RxState :=
  events.foldl rxStep s

end Example16

namespace Example15

/-! ## Tracker_EEPROM_Storage.h: storage lengths and locations (lines 6-28) -/

def LEN_BYTE : Nat := 1
def LEN_INT16 : Nat := 2
def LEN_INT32 : Nat := 4
def LEN_FLOAT : Nat := 4

def LEN_STX : Nat := LEN_BYTE
def LEN_SOURCE : Nat := LEN_INT32
def LEN_DEST : Nat := LEN_INT32
def LEN_TXINT : Nat := LEN_INT16
def LEN_ETX : Nat := LEN_BYTE
def LEN_CSUMA : Nat := LEN_BYTE
def LEN_CSUMB : Nat := LEN_BYTE

def LOC_STX : Nat := 0
def LOC_SOURCE : Nat := LOC_STX + LEN_STX
def LOC_DEST : Nat := LOC_SOURCE + LEN_SOURCE
def LOC_TXINT : Nat := LOC_DEST + LEN_DEST
def LOC_ETX : Nat := LOC_TXINT + LEN_TXINT
def LOC_CSUMA : Nat := LOC_ETX + LEN_ETX
def LOC_CSUMB : Nat := LOC_CSUMA + LEN_CSUMA

/-- The persisted fields as (offset, length) pairs, in the order the header
declares their `LOC_` macros. -/
def eepromLayout : List (Nat × Nat) :=
  [ (LOC_STX, LEN_STX),
    (LOC_SOURCE, LEN_SOURCE),
    (LOC_DEST, LEN_DEST),
    (LOC_TXINT, LEN_TXINT),
    (LOC_ETX, LEN_ETX),
    (LOC_CSUMA, LEN_CSUMA),
    (LOC_CSUMB, LEN_CSUMB) ]

/-! ## Default values of the guard bytes (lines 30-32) -/

def DEF_STX : Int := 0x02
def DEF_ETX : Int := 0x03

end Example15

/-! ## Properties of a persisted layout -/

/-- Each entry of a layout starts where the entry before it ends. -/
def offsetsAreCumulative (layout : List (Nat × Nat)) : Prop :=
  ∀ p ∈ layout.zip layout.tail, p.2.1 = p.1.1 + p.1.2

/-- The byte ranges `[LOC, LOC + LEN)` of a layout are pairwise disjoint. -/
def rangesDisjoint (layout : List (Nat × Nat)) : Prop :=
  layout.Pairwise (fun a b => a.1 + a.2 ≤ b.1 ∨ b.1 + b.2 ≤ a.1)

/-- Every byte below `total` lies in the range of some entry of the layout, and
no entry reaches beyond `total`. -/
def rangesCover (layout : List (Nat × Nat)) (total : Nat) : Prop :=
  (∀ b < total, ∃ p ∈ layout, p.1 ≤ b ∧ b < p.1 + p.2) ∧
  (∀ p ∈ layout, p.1 + p.2 ≤ total)

/-! # Theorems -/

namespace Example16

/-! ## Helper lemmas -/

/-- The list `tracker_message_fields.all` misses no enumerator. -/
theorem tracker_message_fields.mem_all (f : tracker_message_fields) :
    f ∈ tracker_message_fields.all := by
  cases f <;> decide

set_option maxRecDepth 100000 in
/-- C1: the table `ID_widths` has exactly `NUM_ID_WIDTHS = 70` entries, all
of them storable in the two `uint8_t` members, no identifier occurs in two
entries, distinct enumerators have distinct values, every enumerator of
`tracker_message_fields` has exactly one entry, and every entry carries the
value of an enumerator. -/
theorem C1_ID_widths_complete_map :
    NUM_ID_WIDTHS = 70 ∧
    ID_widths.length = NUM_ID_WIDTHS ∧
    (∀ e ∈ ID_widths, e.ID < 256 ∧ e.data_width < 256) ∧
    (ID_widths.map ID_width.ID).Nodup ∧
    (tracker_message_fields.all.map tracker_message_fields.val).Nodup ∧
    (∀ f : tracker_message_fields,
      (ID_widths.filter (fun e => e.ID = f.val)).length = 1) ∧
    (∀ e ∈ ID_widths, ∃ f : tracker_message_fields, f.val = e.ID) := by
  refine ⟨rfl, rfl, by decide, by decide, by decide, ?_, ?_⟩
  · intro f
    cases f <;> rfl
  · have h : ∀ e ∈ ID_widths, ∃ f ∈ tracker_message_fields.all,
        tracker_message_fields.val f = e.ID := by decide
    intro e he
    obtain ⟨f, _, hf⟩ := h e he
    exact ⟨f, hf⟩

end Example16

namespace Example16

/-- A successful lookup returns the width of an entry of the table that carries
the tag. -/
theorem widthOf_ok_mem (t w : Nat) (h : widthOf t = .ok w) :
    (⟨t, w⟩ : ID_width) ∈ ID_widths := by
  unfold widthOf at h
  split at h
  · rename_i e he
    have hm : e ∈ ID_widths := List.mem_of_find?_eq_some he
    have hp : e.ID = t := by simpa using List.find?_some he
    cases h
    cases e
    subst hp
    exact hm
  · cases h

/-- A lookup succeeds exactly when some entry of the table carries the tag. -/
theorem widthOf_ok_iff (t : Nat) :
    (∃ w, widthOf t = .ok w) ↔ ∃ e ∈ ID_widths, e.ID = t := by
  constructor
  · rintro ⟨w, h⟩
    exact ⟨⟨t, w⟩, widthOf_ok_mem t w h, rfl⟩
  · rintro ⟨e, he, het⟩
    unfold widthOf
    cases hf : ID_widths.find? (fun e => e.ID = t) with
    | some e0 => exact ⟨e0.data_width, rfl⟩
    | none =>
      have := List.find?_eq_none.mp hf e he
      simp [het] at this

/-- A lookup fails, with `UnknownField`, exactly when no entry carries the tag. -/
theorem widthOf_error_iff (t : Nat) :
    widthOf t = .error .UnknownField ↔ ¬ ∃ e ∈ ID_widths, e.ID = t := by
  rw [← widthOf_ok_iff]
  unfold widthOf
  cases ID_widths.find? (fun e => e.ID = t) with
  | some e0 => simp
  | none => simp

set_option maxRecDepth 100000 in
/-- The tags carried by the table are the six ranges of enumerator values. -/
theorem tag_in_table_iff (t : Fin 256) :
    (∃ e ∈ ID_widths, e.ID = t.val) ↔
      ((0x02 ≤ t.val ∧ t.val ≤ 0x04) ∨ (0x08 ≤ t.val ∧ t.val ≤ 0x1d) ∨
       (0x20 ≤ t.val ∧ t.val ≤ 0x27) ∨ (0x30 ≤ t.val ∧ t.val ≤ 0x4b) ∨
       t.val = 0x52 ∨ (0x58 ≤ t.val ∧ t.val ≤ 0x5f)) := by
  revert t
  decide

set_option maxRecDepth 100000 in
/-- C2: for every 8-bit tag the lookup in `ID_widths` succeeds exactly when the
tag lies in 0x02..0x04, 0x08..0x1d, 0x20..0x27, 0x30..0x4b, 0x52 or 0x58..0x5f,
which is exactly when the table has an entry for it; for every other tag it
fails with `UnknownField`; a width it returns is the width of an entry of the
table for that tag; and it fails for 186 of the 256 tags. -/
theorem C2_lookup_succeeds_exactly_on_tabled_tags :
    (∀ t : Fin 256,
      ((∃ w, widthOf t.val = .ok w) ↔
        ((0x02 ≤ t.val ∧ t.val ≤ 0x04) ∨ (0x08 ≤ t.val ∧ t.val ≤ 0x1d) ∨
         (0x20 ≤ t.val ∧ t.val ≤ 0x27) ∨ (0x30 ≤ t.val ∧ t.val ≤ 0x4b) ∨
         t.val = 0x52 ∨ (0x58 ≤ t.val ∧ t.val ≤ 0x5f))) ∧
      ((∃ w, widthOf t.val = .ok w) ↔ ∃ e ∈ ID_widths, e.ID = t.val) ∧
      (widthOf t.val = .error .UnknownField ↔
        ¬ ((0x02 ≤ t.val ∧ t.val ≤ 0x04) ∨ (0x08 ≤ t.val ∧ t.val ≤ 0x1d) ∨
           (0x20 ≤ t.val ∧ t.val ≤ 0x27) ∨ (0x30 ≤ t.val ∧ t.val ≤ 0x4b) ∨
           t.val = 0x52 ∨ (0x58 ≤ t.val ∧ t.val ≤ 0x5f))) ∧
      (∀ w, widthOf t.val = .ok w → (⟨t.val, w⟩ : ID_width) ∈ ID_widths)) ∧
    ((List.range 256).filter (fun t => !(widthOf t).toBool)).length = 186 := by
  refine ⟨fun t => ⟨?_, widthOf_ok_iff t.val, ?_, fun w h => widthOf_ok_mem t.val w h⟩, ?_⟩
  · rw [widthOf_ok_iff, tag_in_table_iff]
  · rw [widthOf_error_iff, tag_in_table_iff]
  · decide

end Example16

namespace Example16

open tracker_message_fields in
/-- C3, as stated, fails at `STX` (and at `ETX`): the table has exactly one
entry for `STX`, its `data_width` is 0, and the storage length `LEN_STX` is 1,
so the widths of the table do not equal the storage lengths for all the
identifiers that have both. -/
theorem C3_counterexample_STX :
    (STX, LEN_STX) ∈ storedFieldLengths ∧
    tableWidths STX = [0] ∧ LEN_STX = 1 ∧
    ¬ (∀ p ∈ storedFieldLengths, tableWidths p.1 = [p.2]) := by
  refine ⟨by decide, by decide, rfl, ?_⟩
  intro h
  exact absurd (h (STX, LEN_STX) (by decide)) (by decide)

open tracker_message_fields in
/-- C3, amended: `storedFieldLengths` lists 32 identifiers; for each of the 30
that are not the frame markers `STX` and `ETX` the table `ID_widths` has exactly
one entry and its `data_width` equals the storage length (`MOFIELDS` taken as
`LEN_MOFIELDS0 + LEN_MOFIELDS1 + LEN_MOFIELDS2`); for the markers `STX` and
`ETX` the table width is 0 while the storage length is 1. -/
theorem C3_widths_equal_storage_lengths_except_markers :
    storedFieldLengths.length = 32 ∧
    (storedFieldLengths.filter (fun p => p.1 ≠ STX ∧ p.1 ≠ ETX)).length = 30 ∧
    (∀ p ∈ storedFieldLengths.filter (fun p => p.1 ≠ STX ∧ p.1 ≠ ETX),
      tableWidths p.1 = [p.2]) ∧
    tableWidths MOFIELDS = [LEN_MOFIELDS0 + LEN_MOFIELDS1 + LEN_MOFIELDS2] ∧
    tableWidths STX = [0] ∧ LEN_STX = 1 ∧
    tableWidths ETX = [0] ∧ LEN_ETX = 1 := by
  refine ⟨rfl, by decide, by decide, by decide, by decide, rfl, by decide, rfl⟩

end Example16

set_option maxRecDepth 100000 in
/-- C4: in both persisted layouts `LOC_STX = 0` and every later offset is the
offset of the field before it plus that field's length, so the byte ranges
`[LOC, LOC + LEN)` are pairwise disjoint and cover the image without gaps; the
image starts with `STX` at offset 0 and ends with `ETX`, `CSUMA`, `CSUMB` one
directly after the other; its total length `LOC_CSUMB + LEN_CSUMB` is the sum of
all storage lengths: 99 bytes with `ETX` at 96 in Tracker_Message_Fields.h,
14 bytes with `ETX` at 11 in Tracker_EEPROM_Storage.h. -/
theorem C4_offsets_are_cumulative_sums :
    (Example16.LOC_STX = 0 ∧
     Example16.eepromLayout.head? = some (Example16.LOC_STX, Example16.LEN_STX) ∧
     offsetsAreCumulative Example16.eepromLayout ∧
     rangesDisjoint Example16.eepromLayout ∧
     rangesCover Example16.eepromLayout (Example16.LOC_CSUMB + Example16.LEN_CSUMB) ∧
     Example16.eepromLayout.drop (Example16.eepromLayout.length - 3) =
       [ (Example16.LOC_ETX, Example16.LEN_ETX),
         (Example16.LOC_CSUMA, Example16.LEN_CSUMA),
         (Example16.LOC_CSUMB, Example16.LEN_CSUMB) ] ∧
     Example16.LOC_CSUMA = Example16.LOC_ETX + Example16.LEN_ETX ∧
     Example16.LOC_CSUMB = Example16.LOC_CSUMA + Example16.LEN_CSUMA ∧
     Example16.LOC_CSUMB + Example16.LEN_CSUMB =
       (Example16.eepromLayout.map Prod.snd).sum ∧
     Example16.LOC_ETX = 96 ∧
     Example16.LOC_CSUMB + Example16.LEN_CSUMB = 99) ∧
    (Example15.LOC_STX = 0 ∧
     Example15.eepromLayout.head? = some (Example15.LOC_STX, Example15.LEN_STX) ∧
     offsetsAreCumulative Example15.eepromLayout ∧
     rangesDisjoint Example15.eepromLayout ∧
     rangesCover Example15.eepromLayout (Example15.LOC_CSUMB + Example15.LEN_CSUMB) ∧
     Example15.eepromLayout.drop (Example15.eepromLayout.length - 3) =
       [ (Example15.LOC_ETX, Example15.LEN_ETX),
         (Example15.LOC_CSUMA, Example15.LEN_CSUMA),
         (Example15.LOC_CSUMB, Example15.LEN_CSUMB) ] ∧
     Example15.LOC_CSUMA = Example15.LOC_ETX + Example15.LEN_ETX ∧
     Example15.LOC_CSUMB = Example15.LOC_CSUMA + Example15.LEN_CSUMA ∧
     Example15.LOC_CSUMB + Example15.LEN_CSUMB =
       (Example15.eepromLayout.map Prod.snd).sum ∧
     Example15.LOC_ETX = 11 ∧
     Example15.LOC_CSUMB + Example15.LEN_CSUMB = 14) := by
  refine ⟨⟨rfl, rfl, ?_, ?_, ⟨?_, ?_⟩, rfl, rfl, rfl, rfl, rfl, rfl⟩,
    ⟨rfl, rfl, ?_, ?_, ⟨?_, ?_⟩, rfl, rfl, rfl, rfl, rfl, rfl⟩⟩
  · unfold offsetsAreCumulative; decide
  · unfold rangesDisjoint; decide
  · decide
  · decide
  · unfold offsetsAreCumulative; decide
  · unfold rangesDisjoint; decide
  · decide
  · decide

namespace Example16

/-- The bytes contributed by the selected fields never exceed those of all the
bound fields together. -/
theorem selected_sum_le (m0 m1 m2 : Nat) (f : MO_binding → Nat) :
    ((selectedBits m0 m1 m2).map f).sum ≤ (MOFIELDS_bits.map f).sum := by
  unfold selectedBits
  exact List.Sublist.sum_le_sum (List.Sublist.map f (List.filter_sublist _))
    (fun _ _ => Nat.zero_le _)

set_option maxRecDepth 100000 in
/-- The tag and payload bytes of all 59 bound fields together are 227. -/
theorem all_fields_sum :
    (MOFIELDS_bits.map (fun b => 1 + fieldWidth b.field)).sum = 227 := by
  decide

set_option maxRecDepth 100000 in
/-- C5: for every choice of the masks `MOFIELDS[0..2]` the length of the binary
MO frame (start marker, one tag byte and the dictionary width for every selected
field, end marker, two checksum bytes) is at most 231 and so never exceeds
`MOLIM = 340`; it is 4 when no bit is set; and it is 231 when all 59 bound bits
are set.  Every bound field has a width in the dictionary. -/
theorem C5_mo_frame_length_within_MOLIM :
    (∀ m0 m1 m2 : Nat,
      moFrameLength m0 m1 m2 ≤ 231 ∧ moFrameLength m0 m1 m2 ≤ MOLIM) ∧
    MOLIM = 340 ∧
    MOFIELDS_bits.length = 59 ∧
    (∀ b ∈ MOFIELDS_bits, ∃ w, widthOf b.field.val = .ok w) ∧
    selectedBits 0 0 0 = [] ∧
    moFrameLength 0 0 0 = 4 ∧
    selectedBits 0x08FFFFFC 0xFF00FFFF 0xFFF00000 = MOFIELDS_bits ∧
    moFrameLength 0x08FFFFFC 0xFF00FFFF 0xFFF00000 = 231 ∧
    moFrameLength 0xFFFFFFFF 0xFFFFFFFF 0xFFFFFFFF = 231 ∧
    (∀ m0 m1 m2 : Nat, selectedBits m0 m1 m2 = MOFIELDS_bits →
      moFrameLength m0 m1 m2 = 231) := by
  have hle : ∀ m0 m1 m2 : Nat, moFrameLength m0 m1 m2 ≤ 231 := by
    intro m0 m1 m2
    have h := selected_sum_le m0 m1 m2 (fun b => 1 + fieldWidth b.field)
    rw [all_fields_sum] at h
    unfold moFrameLength
    omega
  refine ⟨fun m0 m1 m2 => ⟨hle m0 m1 m2, ?_⟩, rfl, rfl, ?_, by decide, by decide,
    by decide, by decide, by decide, ?_⟩
  · have h := hle m0 m1 m2
    unfold MOLIM
    omega
  · have h : ∀ b ∈ MOFIELDS_bits, (widthOf b.field.val).toBool = true := by decide
    intro b hb
    have hb2 := h b hb
    cases hw : widthOf b.field.val with
    | ok w => exact ⟨w, rfl⟩
    | error e => rw [hw] at hb2; cases hb2
  · intro m0 m1 m2 hsel
    unfold moFrameLength
    rw [hsel, all_fields_sum]

set_option maxRecDepth 100000 in
/-- C6: each of the 59 selection constants is a 32-bit value with exactly one
bit set and belongs to one of the three mask words; no two constants of the same
word are equal, so no (word, bit position) is bound to two constants; and no
field has two constants. -/
theorem C6_selection_bits_bound_to_one_field :
    MOFIELDS_bits.length = 59 ∧
    (∀ b ∈ MOFIELDS_bits, b.word < 3 ∧ b.bit < 2 ^ 32 ∧ ∃ k < 32, b.bit = 2 ^ k) ∧
    (MOFIELDS_bits.map (fun b => (b.word, b.bit))).Nodup ∧
    (MOFIELDS_bits.map MO_binding.field).Nodup ∧
    (∀ a ∈ MOFIELDS_bits, ∀ b ∈ MOFIELDS_bits, ∀ k : Nat,
      a.word = b.word → a.bit = 2 ^ k → b.bit = 2 ^ k → a = b) := by
  have hnd : (MOFIELDS_bits.map (fun b => (b.word, b.bit))).Nodup := by decide
  refine ⟨rfl, by decide, hnd, by decide, ?_⟩
  intro a ha b hb k hw hak hbk
  apply List.inj_on_of_nodup_map hnd ha hb
  simp only [Prod.mk.injEq]
  exact ⟨hw, hak.trans hbk.symm⟩

open tracker_message_fields in
set_option maxRecDepth 100000 in
/-- C7: the default masks are `DEF_MOFIELDS0 = 0x00000f00`, which is the OR of
the constants of `DATETIME`, `LAT`, `LON` and `ALT`, and `DEF_MOFIELDS1 =
DEF_MOFIELDS2 = 0`; the fields whose selection bit is set in them are exactly
`DATETIME`, `LAT`, `LON` and `ALT`. -/
theorem C7_default_masks_select_datetime_lat_lon_alt :
    DEF_MOFIELDS0 = 0x00000f00 ∧ DEF_MOFIELDS1 = 0 ∧ DEF_MOFIELDS2 = 0 ∧
    DEF_MOFIELDS0 =
      (MOFIELDS0_DATETIME ||| MOFIELDS0_LAT ||| MOFIELDS0_LON ||| MOFIELDS0_ALT) ∧
    (selectedBits DEF_MOFIELDS0 DEF_MOFIELDS1 DEF_MOFIELDS2).map MO_binding.field =
      [DATETIME, LAT, LON, ALT] ∧
    (∀ b ∈ MOFIELDS_bits,
      bitIsSet (maskWord DEF_MOFIELDS0 DEF_MOFIELDS1 DEF_MOFIELDS2 b.word) b.bit = true ↔
        b.field ∈ [DATETIME, LAT, LON, ALT]) := by
  refine ⟨rfl, rfl, rfl, by decide, by decide, by decide⟩

set_option maxRecDepth 100000 in
/-- C8: every width in `ID_widths` is one of 0, 1, 2, 3, 4, 7 or 12, and each
of these seven values is the width of at least one entry. -/
theorem C8_widths_are_0_1_2_3_4_7_12 :
    (∀ e ∈ ID_widths, e.data_width ∈ [0, 1, 2, 3, 4, 7, 12]) ∧
    (∀ w ∈ [0, 1, 2, 3, 4, 7, 12], ∃ e ∈ ID_widths, e.data_width = w) := by
  refine ⟨by decide, by decide⟩

open tracker_message_fields in
set_option maxRecDepth 100000 in
/-- C9: the entries of `ID_widths` with width 0 are exactly those of `STX`,
`ETX`, `USERFUNC1`, `USERFUNC2`, `USERFUNC3` and `USERFUNC4`; every other
identifier, among them `USERFUNC5..8` and `RBHEAD`, has a width of at least one
byte. -/
theorem C9_zero_width_exactly_the_markers :
    (∀ e ∈ ID_widths, e.data_width = 0 ↔
      e.ID ∈ [STX.val, ETX.val, USERFUNC1.val, USERFUNC2.val, USERFUNC3.val,
              USERFUNC4.val]) ∧
    (∀ f : tracker_message_fields,
      (tableWidths f = [0] ↔
        f ∈ [STX, ETX, USERFUNC1, USERFUNC2, USERFUNC3, USERFUNC4]) ∧
      ∃ w, tableWidths f = [w] ∧
        (f ∉ [STX, ETX, USERFUNC1, USERFUNC2, USERFUNC3, USERFUNC4] → 1 ≤ w)) ∧
    tableWidths USERFUNC5 = [2] ∧ tableWidths USERFUNC6 = [2] ∧
    tableWidths USERFUNC7 = [4] ∧ tableWidths USERFUNC8 = [4] ∧
    tableWidths RBHEAD = [4] := by
  refine ⟨by decide, ?_, by decide, by decide, by decide, by decide, by decide⟩
  intro f
  have h : ∀ g ∈ tracker_message_fields.all,
      (tableWidths g = [0] ↔
        g ∈ [STX, ETX, USERFUNC1, USERFUNC2, USERFUNC3, USERFUNC4]) ∧
      ∃ w ∈ [0, 1, 2, 3, 4, 7, 12], tableWidths g = [w] ∧
        (g ∉ [STX, ETX, USERFUNC1, USERFUNC2, USERFUNC3, USERFUNC4] → 1 ≤ w) := by
    decide
  obtain ⟨h1, w, _, h2⟩ := h f (tracker_message_fields.mem_all f)
  exact ⟨h1, w, h2⟩

/-- C10, as stated, fails: the nine failure kinds of the specification cannot
each have an enumerator of their own in `tracker_parsing_result`, which has
seven enumerators, `DATA_VALID` among them. -/
theorem C10_counterexample_nine_kinds_seven_enumerators :
    ¬ ∃ code : SpecFailureKind → tracker_parsing_result,
        Function.Injective code ∧ ∀ k, code k ≠ tracker_parsing_result.DATA_VALID := by
  rintro ⟨code, hinj, _⟩
  have h := Fintype.card_le_of_injective code hinj
  have h9 : Fintype.card SpecFailureKind = 9 := rfl
  have h7 : Fintype.card tracker_parsing_result = 7 := rfl
  omega

open tracker_parsing_result in
/-- C10, amended: `tracker_parsing_result` has exactly the seven enumerators
`DATA_VALID = 0`, `DATA_TOO_SHORT`, `NO_STX`, `INVALID_FIELD`, `NO_ETX`,
`CHECKSUM_ERROR` and `DATA_WIDTH_INVALID`, with the values 0 to 6; the six
failure kinds DataTooShort, NoStx, InvalidField, NoEtx, ChecksumError and
DataWidthInvalid each have an enumerator, these are pairwise distinct and differ
in value from `DATA_VALID`; UnknownField, CorruptImage and MessageTooLong have
none, and no enumerator other than `DATA_VALID` is left over for them. -/
theorem C10_six_failure_kinds_have_distinct_enumerators :
    (∀ r : tracker_parsing_result, r ∈ tracker_parsing_result.all) ∧
    tracker_parsing_result.all.map tracker_parsing_result.val = [0, 1, 2, 3, 4, 5, 6] ∧
    DATA_VALID.val = 0 ∧
    (∀ k : SpecFailureKind,
      k ∈ [SpecFailureKind.DataTooShort, .NoStx, .InvalidField, .NoEtx, .ChecksumError,
           .DataWidthInvalid] →
      ∃ r, enumeratorOf k = some r ∧ r ≠ DATA_VALID ∧ r.val ≠ DATA_VALID.val) ∧
    (∀ j k : SpecFailureKind, ∀ r, enumeratorOf j = some r → enumeratorOf k = some r →
      j = k) ∧
    enumeratorOf .UnknownField = none ∧
    enumeratorOf .CorruptImage = none ∧
    enumeratorOf .MessageTooLong = none ∧
    (∀ r : tracker_parsing_result, r ≠ DATA_VALID → ∃ k, enumeratorOf k = some r) := by
  refine ⟨?_, rfl, rfl, ?_, ?_, rfl, rfl, rfl, ?_⟩
  · intro r; cases r <;> decide
  · intro k hk
    cases k <;> simp [enumeratorOf, tracker_parsing_result.val] at hk ⊢
  · intro j k r hj hk
    cases r <;> cases j <;> cases k <;> simp [enumeratorOf] at hj hk ⊢
  · intro r hr
    cases r
    · exact absurd rfl hr
    · exact ⟨.DataTooShort, rfl⟩
    · exact ⟨.NoStx, rfl⟩
    · exact ⟨.InvalidField, rfl⟩
    · exact ⟨.NoEtx, rfl⟩
    · exact ⟨.ChecksumError, rfl⟩
    · exact ⟨.DataWidthInvalid, rfl⟩

end Example16

open Example16.tracker_message_fields in
/-- C11: in both headers the guard values are `DEF_STX = 0x02` and
`DEF_ETX = 0x03`; they are the values of the enumerators `STX` and `ETX` of
`tracker_message_fields`, and the leading and the trailing guard differ. -/
theorem C11_guard_sentinels_are_frame_markers :
    Example16.DEF_STX = 0x02 ∧ Example16.DEF_ETX = 0x03 ∧
    Example15.DEF_STX = 0x02 ∧ Example15.DEF_ETX = 0x03 ∧
    Example16.DEF_STX = (STX.val : Int) ∧ Example16.DEF_ETX = (ETX.val : Int) ∧
    Example15.DEF_STX = (STX.val : Int) ∧ Example15.DEF_ETX = (ETX.val : Int) ∧
    Example16.DEF_STX ≠ Example16.DEF_ETX ∧
    Example15.DEF_STX ≠ Example15.DEF_ETX := by
  refine ⟨rfl, rfl, rfl, rfl, rfl, rfl, rfl, rfl, by decide, by decide⟩

namespace Example16

open tracker_message_fields in
set_option maxRecDepth 100000 in
/-- C13: the fields that have a selection constant are exactly the identifiers
with `0x04 <= id <= 0x4b`, which are all identifiers except `STX`, `ETX`,
`RBHEAD` and `USERFUNC1..8`; every constant belongs to the mask word `id / 32`
and equals `2 ^ (31 - id % 32)`. -/
theorem C13_selection_bit_is_arithmetic_in_identifier :
    (∀ f : tracker_message_fields,
      ((∃ b ∈ MOFIELDS_bits, b.field = f) ↔ (0x04 ≤ f.val ∧ f.val ≤ 0x4b)) ∧
      ((∃ b ∈ MOFIELDS_bits, b.field = f) ↔
        f ∉ [STX, ETX, RBHEAD, USERFUNC1, USERFUNC2, USERFUNC3, USERFUNC4,
             USERFUNC5, USERFUNC6, USERFUNC7, USERFUNC8])) ∧
    (∀ b ∈ MOFIELDS_bits,
      b.word = b.field.val / 32 ∧ b.bit = 2 ^ (31 - b.field.val % 32)) := by
  refine ⟨?_, by decide⟩
  have h : ∀ g ∈ tracker_message_fields.all,
      ((∃ b ∈ MOFIELDS_bits, b.field = g) ↔ (0x04 ≤ g.val ∧ g.val ≤ 0x4b)) ∧
      ((∃ b ∈ MOFIELDS_bits, b.field = g) ↔
        g ∉ [STX, ETX, RBHEAD, USERFUNC1, USERFUNC2, USERFUNC3, USERFUNC4,
             USERFUNC5, USERFUNC6, USERFUNC7, USERFUNC8]) := by
    decide
  exact fun f => h f (tracker_message_fields.mem_all f)

end Example16

/-- C15, as stated, fails at `SOURCE`: Tracker_EEPROM_Storage.h stores it at
offset 1, directly after `STX`, Tracker_Message_Fields.h at offset 2, after
`STX` and `SWVER`. -/
theorem C15_counterexample_LOC_SOURCE :
    Example15.LOC_SOURCE = 1 ∧ Example16.LOC_SOURCE = 2 ∧
    Example15.LOC_SOURCE ≠ Example16.LOC_SOURCE := by
  refine ⟨rfl, rfl, by decide⟩

/-- C15, amended: every field stored by both layouts (`STX`, `SOURCE`, `DEST`,
`TXINT`, `ETX`, `CSUMA`, `CSUMB`) has the same storage length in both, and
`STX` has the same offset 0 in both; the offsets of the other six differ:
1, 5, 9, 11, 12, 13 in Tracker_EEPROM_Storage.h against 2, 20, 91, 96, 97, 98
in Tracker_Message_Fields.h. -/
theorem C15_common_fields_same_length_only_STX_same_offset :
    (Example15.LEN_STX = Example16.LEN_STX ∧
     Example15.LEN_SOURCE = Example16.LEN_SOURCE ∧
     Example15.LEN_DEST = Example16.LEN_DEST ∧
     Example15.LEN_TXINT = Example16.LEN_TXINT ∧
     Example15.LEN_ETX = Example16.LEN_ETX ∧
     Example15.LEN_CSUMA = Example16.LEN_CSUMA ∧
     Example15.LEN_CSUMB = Example16.LEN_CSUMB) ∧
    (Example15.LOC_STX = 0 ∧ Example16.LOC_STX = 0) ∧
    (Example15.LOC_SOURCE = 1 ∧ Example16.LOC_SOURCE = 2) ∧
    (Example15.LOC_DEST = 5 ∧ Example16.LOC_DEST = 20) ∧
    (Example15.LOC_TXINT = 9 ∧ Example16.LOC_TXINT = 91) ∧
    (Example15.LOC_ETX = 11 ∧ Example16.LOC_ETX = 96) ∧
    (Example15.LOC_CSUMA = 12 ∧ Example16.LOC_CSUMA = 97) ∧
    (Example15.LOC_CSUMB = 13 ∧ Example16.LOC_CSUMB = 98) := by
  refine ⟨⟨rfl, rfl, rfl, rfl, rfl, rfl, rfl⟩, ⟨rfl, rfl⟩, ⟨rfl, rfl⟩, ⟨rfl, rfl⟩,
    ⟨rfl, rfl⟩, ⟨rfl, rfl⟩, ⟨rfl, rfl⟩, ⟨rfl, rfl⟩⟩

namespace Example16

open tracker_message_fields in
/-- C16: the width of `DATETIME` in `ID_widths` is 7, the sum of the widths of
`YEAR` (2), `MONTH`, `DAY`, `HOUR`, `MIN` and `SEC` (1 each); with the 2 bytes
of `MILLIS` the sum would be 9. -/
theorem C16_DATETIME_width_is_sum_of_components :
    tableWidths DATETIME = [7] ∧
    [YEAR, MONTH, DAY, HOUR, MIN, SEC].map tableWidths = [[2], [1], [1], [1], [1], [1]] ∧
    (tableWidths DATETIME).sum =
      (([YEAR, MONTH, DAY, HOUR, MIN, SEC].map tableWidths).map List.sum).sum ∧
    tableWidths MILLIS = [2] ∧
    (tableWidths DATETIME).sum ≠
      (([YEAR, MONTH, DAY, HOUR, MIN, SEC, MILLIS].map tableWidths).map List.sum).sum := by
  refine ⟨by decide, by decide, by decide, by decide, by decide⟩

set_option maxRecDepth 100000 in
/-- C17: the eight `FLAGS1_` constants, the four `FLAGS2_` constants and the
seven `ALARM_` constants are each pairwise distinct single-bit values below 256;
their ORs are 0xFF, 0xF0 and 0x7F; the flag fields are one byte long. -/
theorem C17_flag_bits_distinct_single_bits_in_one_byte :
    (FLAGS1_bits.length = 8 ∧ FLAGS1_bits.Nodup ∧
      (∀ c ∈ FLAGS1_bits, c < 256 ∧ ∃ k < 8, c = 2 ^ k) ∧
      FLAGS1_bits.foldl (fun a c => a ||| c) 0 = 0xFF) ∧
    (FLAGS2_bits.length = 4 ∧ FLAGS2_bits.Nodup ∧
      (∀ c ∈ FLAGS2_bits, c < 256 ∧ ∃ k < 8, c = 2 ^ k) ∧
      FLAGS2_bits.foldl (fun a c => a ||| c) 0 = 0xF0) ∧
    (ALARM_bits.length = 7 ∧ ALARM_bits.Nodup ∧
      (∀ c ∈ ALARM_bits, c < 256 ∧ ∃ k < 8, c = 2 ^ k) ∧
      ALARM_bits.foldl (fun a c => a ||| c) 0 = 0x7F) ∧
    LEN_FLAGS1 = 1 ∧ LEN_FLAGS2 = 1 := by
  refine ⟨⟨rfl, by decide, by decide, by decide⟩, ⟨rfl, by decide, by decide, by decide⟩,
    ⟨rfl, by decide, by decide, by decide⟩, rfl, rfl⟩

/-- C18: each default low limit is strictly below the matching default high
limit (pressure, temperature as signed 16-bit values, humidity), and the default
low-battery limit is strictly below the default battery voltage; so for each
quantity some value of its type lies strictly between the two limits, and the
default battery voltage lies above the low-battery limit. -/
theorem C18_default_thresholds_consistent :
    DEF_LOPRESS < DEF_HIPRESS ∧
    DEF_LOTEMP < DEF_HITEMP ∧
    (-32768 ≤ DEF_LOTEMP ∧ DEF_LOTEMP ≤ 32767 ∧ -32768 ≤ DEF_HITEMP ∧ DEF_HITEMP ≤ 32767) ∧
    DEF_LOHUMID < DEF_HIHUMID ∧
    DEF_LOWBATT < DEF_BATTV ∧
    (∃ v : Int, inRangeOf .uint16_t v = true ∧ DEF_LOPRESS < v ∧ v < DEF_HIPRESS) ∧
    (∃ v : Int, inRangeOf .int16_t v = true ∧ DEF_LOTEMP < v ∧ v < DEF_HITEMP) ∧
    (∃ v : Int, inRangeOf .uint16_t v = true ∧ DEF_LOHUMID < v ∧ v < DEF_HIHUMID) ∧
    (inRangeOf .uint16_t DEF_BATTV = true ∧ DEF_LOWBATT < DEF_BATTV) := by
  refine ⟨by decide, by decide, by decide, by decide, by decide,
    ⟨1, by decide, by decide, by decide⟩, ⟨0, by decide, by decide, by decide⟩,
    ⟨1, by decide, by decide, by decide⟩, by decide, by decide⟩

open tracker_message_fields in
set_option maxRecDepth 100000 in
/-- C19: an MT frame that carries every entry of `ID_widths` other than `STX`
and `ETX` once (start marker, for each of the 68 entries one tag byte and its
width, end marker, two checksum bytes) is 256 bytes long, which is at most
`MTLIM = 270`; and `MTLIM` is smaller than `MOLIM`. -/
theorem C19_full_MT_frame_within_MTLIM :
    (ID_widths.filter (fun e => e.ID ≠ STX.val ∧ e.ID ≠ ETX.val)).length = 68 ∧
    1 + ((ID_widths.filter (fun e => e.ID ≠ STX.val ∧ e.ID ≠ ETX.val)).map
          (fun e => 1 + e.data_width)).sum + 1 + 2 = 256 ∧
    1 + ((ID_widths.filter (fun e => e.ID ≠ STX.val ∧ e.ID ≠ ETX.val)).map
          (fun e => 1 + e.data_width)).sum + 1 + 2 ≤ MTLIM ∧
    MTLIM = 270 ∧ MTLIM < MOLIM := by
  refine ⟨by decide, by decide, by decide, rfl, by decide⟩

end Example16

namespace Example16

open tracker_message_fields in
set_option maxRecDepth 100000 in
/-- C12, as stated, fails at `STX` (and at `ETX`): the member `STX` is a byte
with the default `DEF_STX = 0x02`, which lies within 0..255, but `ID_widths`
assigns `STX` 0 bytes, and 0x02 cannot be written in 0 bytes. -/
theorem C12_counterexample_DEF_STX_in_zero_bytes :
    isIntegerMember STX = true ∧
    DEF_STX = 0x02 ∧
    defaultInRange ⟨STX, 0, .int DEF_STX⟩ = true ∧
    tableWidths STX = [0] ∧
    defaultFitsWidth ⟨STX, 0, .int DEF_STX⟩ = false ∧
    ¬ (∀ d ∈ defaultsTable, isIntegerMember d.field = true → defaultFitsWidth d = true) := by
  refine ⟨by decide, rfl, by decide, by decide, by decide, by decide⟩

open tracker_message_fields in
set_option maxRecDepth 100000 in
/-- C12, amended: the 62 `DEF_` macros are, in order, one for every one of the
60 members of `trackerSettings`, the three elements of `MOFIELDS` counted
separately; the 59 defaults of members of an integer type (byte, uint16, int16,
uint32, int32) lie within the range of the member's type; and each of them,
the defaults of the markers `STX` and `ETX` apart, can be written without
truncation in the bytes `ID_widths` assigns to the field.  `ID_widths` assigns
`STX` and `ETX` 0 bytes, in which their defaults 0x02 and 0x03 cannot be
written. -/
theorem C12_defaults_one_per_member_in_type_range :
    trackerSettings.length = 60 ∧
    (trackerSettings.map Member.field).Nodup ∧
    defaultsTable.length = 62 ∧
    defaultsTable.map (fun d => (d.field, d.index)) = trackerSettings.flatMap defaultKeys ∧
    (defaultsTable.map (fun d => (d.field, d.index))).Nodup ∧
    (defaultsTable.filter (fun d => isIntegerMember d.field)).length = 59 ∧
    (∀ d ∈ defaultsTable, isIntegerMember d.field = true → defaultInRange d = true) ∧
    (∀ d ∈ defaultsTable, isIntegerMember d.field = true → d.field ≠ STX → d.field ≠ ETX →
      defaultFitsWidth d = true) ∧
    (tableWidths STX = [0] ∧ defaultFitsWidth ⟨STX, 0, .int DEF_STX⟩ = false) ∧
    (tableWidths ETX = [0] ∧ defaultFitsWidth ⟨ETX, 0, .int DEF_ETX⟩ = false) := by
  refine ⟨rfl, by decide, rfl, by decide, by decide, by decide, by decide, by decide,
    ⟨by decide, by decide⟩, ⟨by decide, by decide⟩⟩

open tracker_serial_rx_status in
/-- C14: `RX_IDLE_TIMEOUT = 1` is strictly less than `CHECK_SERIAL_TIMEOUT =
10`; the four reception states have the pairwise distinct values 0 to 3 with
`DATA_NOT_SEEN = 0`, the state a reception starts in; a reception that has seen
a byte becomes `DATA_RECEIVED` after `RX_IDLE_TIMEOUT` time units without a
byte, before `CHECK_SERIAL_TIMEOUT` time units have passed in all. -/
theorem C14_idle_timeout_shorter_than_overall_timeout :
    RX_IDLE_TIMEOUT = 1 ∧ CHECK_SERIAL_TIMEOUT = 10 ∧
    RX_IDLE_TIMEOUT < CHECK_SERIAL_TIMEOUT ∧
    (∀ s : tracker_serial_rx_status, s ∈ tracker_serial_rx_status.all) ∧
    tracker_serial_rx_status.all.map tracker_serial_rx_status.val = [0, 1, 2, 3] ∧
    (tracker_serial_rx_status.all.map tracker_serial_rx_status.val).Nodup ∧
    DATA_NOT_SEEN.val = 0 ∧
    rxInit.status = DATA_NOT_SEEN ∧
    rxRun rxInit [.byteArrived] = ⟨DATA_SEEN, 0, 0⟩ ∧
    rxRun rxInit [.byteArrived, .unitElapsed] = ⟨DATA_RECEIVED, 1, 1⟩ ∧
    (∀ s : RxState, s.status = DATA_SEEN → s.idle = 0 →
      s.elapsed + RX_IDLE_TIMEOUT < CHECK_SERIAL_TIMEOUT →
      (rxRun s (List.replicate RX_IDLE_TIMEOUT .unitElapsed)).status = DATA_RECEIVED ∧
      (rxRun s (List.replicate RX_IDLE_TIMEOUT .unitElapsed)).elapsed <
        CHECK_SERIAL_TIMEOUT) ∧
    (rxRun rxInit (List.replicate CHECK_SERIAL_TIMEOUT .unitElapsed)).status =
      DATA_TIMEOUT := by
  refine ⟨rfl, rfl, by decide, ?_, rfl, by decide, rfl, rfl, by decide, by decide, ?_,
    by decide⟩
  · intro s
    cases s <;> decide
  · intro s hs hi he
    obtain ⟨st, e, i⟩ := s
    simp only at hs hi he
    subst hs hi
    simp only [RX_IDLE_TIMEOUT, CHECK_SERIAL_TIMEOUT] at he ⊢
    simp [rxRun, rxStep, RX_IDLE_TIMEOUT]
    omega

end Example16
